import Mathlib

/-!
# BioVerify UI core — verification development

Shallow embedding of the algorithmic core of the BioVerify client
(`ui/src`): the pipeline-diagnostics deriver (`PipelineDiagram.tsx`),
the liveness presenter (`LivenessPanel.tsx`), the evidence resolver
(`EvidenceViewer.tsx`), and the two polling hooks (`useAnalysis.ts`
and `usePolling` in the UI hooks).

JavaScript numbers carrying fractional values (durations, scores,
thresholds) are modelled as `ℚ`; non-negative integer counters as `ℕ`;
optional JSON fields as `Option`; string-keyed records as association
lists / functions to `Option`.
-/

/-- Per-stage health status, `type StageStatus = 'ok' | 'warning' | 'fail'`
in `PipelineDiagram.tsx`. -/
inductive StageStatus where
  | ok
  | warning
  | fail
deriving DecidableEq, Repr

/-- `PipelineMetrics.ingest` from `types/api.ts`: `{ num_windows?: number }`. -/
structure IngestMetrics where
  num_windows : Option ℕ
deriving DecidableEq, Repr

/-- `PipelineMetrics.face` from `types/api.ts`: `{ windows?: unknown[] }`.
Only the length of the array is ever read, so elements are `Unit`. -/
structure FaceMetrics where
  windows : Option (List Unit)
deriving DecidableEq, Repr

/-- `PipelineMetrics.roi` from `types/api.ts`. -/
structure RoiMetrics where
  total_frames : Option ℕ
  frames_with_all_regions_valid : Option ℕ
  frames_per_region : Option (List (String × ℕ))
deriving DecidableEq, Repr

/-- `PipelineMetrics.rppg` from `types/api.ts`. -/
structure RppgMetrics where
  samples_per_region : Option (List (String × ℕ))
  duration_seconds : Option ℚ
deriving DecidableEq, Repr

/-- `PipelineMetrics` from `types/api.ts`: every sub-object is optional. -/
structure PipelineMetrics where
  ingest : Option IngestMetrics
  face : Option FaceMetrics
  roi : Option RoiMetrics
  rppg : Option RppgMetrics
deriving DecidableEq, Repr

/-- The all-absent `ingest` sub-object (`m.ingest ?? {}` yields this). -/
def emptyIngest : IngestMetrics := ⟨none⟩

/-- The all-absent `face` sub-object. -/
def emptyFace : FaceMetrics := ⟨none⟩

/-- The all-absent `roi` sub-object (`m.roi ?? {}`). -/
def emptyRoi : RoiMetrics := ⟨none, none, none⟩

/-- The all-absent `rppg` sub-object (`m.rppg ?? {}`). -/
def emptyRppg : RppgMetrics := ⟨none, none⟩

/-- `m.ingest?.num_windows ?? 0` in `getIngestStage`. -/
def ingestNumWindows (m : PipelineMetrics) : ℕ :=
  ((m.ingest.getD emptyIngest).num_windows).getD 0

/-- `const windows = m.face?.windows ?? []; const n = windows.length`
in `getFaceStage` (the `Array.isArray` guard is the identity on a
well-typed payload). -/
def faceWindowCount (m : PipelineMetrics) : ℕ :=
  (((m.face.getD emptyFace).windows).getD []).length

/-- `roi.total_frames ?? 0` in `getRoiStage`. -/
def roiTotalFrames (m : PipelineMetrics) : ℕ :=
  ((m.roi.getD emptyRoi).total_frames).getD 0

/-- `roi.frames_with_all_regions_valid ?? 0` in `getRoiStage`. -/
def roiAllValid (m : PipelineMetrics) : ℕ :=
  ((m.roi.getD emptyRoi).frames_with_all_regions_valid).getD 0

/-- `rppg.duration_seconds ?? 0` in `getRppgStage`. -/
def rppgDuration (m : PipelineMetrics) : ℚ :=
  ((m.rppg.getD emptyRppg).duration_seconds).getD 0

/-- `Object.values(samples).reduce((a, b) => a + (b ?? 0), 0)` in
`getRppgStage`: sum of the per-region sample counts. -/
def sumCounts (l : List (String × ℕ)) : ℕ :=
  l.foldl (fun a b => a + b.2) 0

/-- `const samples = rppg.samples_per_region ?? {}` followed by the
reduce over its values in `getRppgStage`. -/
def rppgTotalSamples (m : PipelineMetrics) : ℕ :=
  sumCounts (((m.rppg.getD emptyRppg).samples_per_region).getD [])

/-- Status computed by `getIngestStage` in `PipelineDiagram.tsx`:
`n >= 1 ? 'ok' : 'fail'`. (The summary string of the returned stage
object is presentation-only and not modelled.) -/
def getIngestStage (m : PipelineMetrics) : StageStatus :=
  if ingestNumWindows m ≥ 1 then .ok else .fail

/-- Status computed by `getFaceStage` in `PipelineDiagram.tsx`:
`n >= 1 ? 'ok' : 'fail'`. -/
def getFaceStage (m : PipelineMetrics) : StageStatus :=
  if faceWindowCount m ≥ 1 then .ok else .fail

/-- Status computed by `getRoiStage` in `PipelineDiagram.tsx`:
`if (total === 0) fail; else if (allValid > 0) ok; else warning`. -/
def getRoiStage (m : PipelineMetrics) : StageStatus :=
  if roiTotalFrames m = 0 then .fail
  else if roiAllValid m > 0 then .ok
  else .warning

/-- Status computed by `getRppgStage` in `PipelineDiagram.tsx`:
`fail` by default, `ok` if `duration > 0 && totalSamples > 0`,
`warning` if `duration === 0 && totalSamples === 0`. -/
def getRppgStage (m : PipelineMetrics) : StageStatus :=
  if rppgDuration m > 0 ∧ rppgTotalSamples m > 0 then .ok
  else if rppgDuration m = 0 ∧ rppgTotalSamples m = 0 then .warning
  else .fail

/-- The `stages` array built by the `PipelineDiagram` component: all four
stage statuses, always computed, in pipeline order. -/
def stageStatuses (m : PipelineMetrics) : List StageStatus :=
  [getIngestStage m, getFaceStage m, getRoiStage m, getRppgStage m]

/-- The payload with every missing sub-object and field replaced by the
zero/empty default that the `?? 0` / `?? []` / `?? {}` fallbacks in
`PipelineDiagram.tsx` read in its place. -/
def zeroFill (m : PipelineMetrics) : PipelineMetrics :=
  { ingest := some ⟨some (ingestNumWindows m)⟩
    face := some ⟨some (((m.face.getD emptyFace).windows).getD [])⟩
    roi := some ⟨some (roiTotalFrames m), some (roiAllValid m),
                some (((m.roi.getD emptyRoi).frames_per_region).getD [])⟩
    rppg := some ⟨some (((m.rppg.getD emptyRppg).samples_per_region).getD []),
                 some (rppgDuration m)⟩ }

/-- Claim C3: for every `PipelineMetrics` input, the rPPG stage status is
`Ok` exactly when `durationSeconds > 0` and the sum of the
`samplesPerRegion` counts is `> 0`; `Warning` exactly when
`durationSeconds = 0` and that sum is `0`; and `Fail` exactly in any
other combination (inconsistent partial data). -/
theorem rppg_stage_status_table (m : PipelineMetrics) :
    (getRppgStage m = .ok ↔ rppgDuration m > 0 ∧ rppgTotalSamples m > 0) ∧
    (getRppgStage m = .warning ↔ rppgDuration m = 0 ∧ rppgTotalSamples m = 0) ∧
    (getRppgStage m = .fail ↔
      ¬(rppgDuration m > 0 ∧ rppgTotalSamples m > 0) ∧
      ¬(rppgDuration m = 0 ∧ rppgTotalSamples m = 0)) := by
  unfold getRppgStage
  split_ifs with h1 h2 <;> simp_all <;> intro hd <;> simp [hd] at h1

/-- Claim C4: for every `PipelineMetrics` input, the ROI stage status is
`Fail` exactly when `totalFrames = 0`; `Ok` exactly when
`totalFrames > 0` and `framesWithAllRegionsValid > 0`; `Warning`
exactly when `totalFrames > 0` and `framesWithAllRegionsValid = 0`. -/
theorem roi_stage_status_table (m : PipelineMetrics) :
    (getRoiStage m = .fail ↔ roiTotalFrames m = 0) ∧
    (getRoiStage m = .ok ↔ roiTotalFrames m > 0 ∧ roiAllValid m > 0) ∧
    (getRoiStage m = .warning ↔ roiTotalFrames m > 0 ∧ roiAllValid m = 0) := by
  unfold getRoiStage
  split_ifs with h1 h2 <;> simp_all <;> omega

/-- Claim C8: for every input payload — including ones with any or all of
the `ingest`, `face`, `roi`, `rppg` sub-objects missing — the deriver
produces a status for all four stages (the functions are total, so
nothing is raised), and it reads each missing sub-object or field as
zero/empty: the statuses agree with those of the zero-filled payload.
On the fully absent payload the pipeline renders as mostly-failing
(`fail, fail, fail, warning`) rather than crashing. -/
theorem stage_statuses_total_zero_default (m : PipelineMetrics) :
    stageStatuses m = stageStatuses (zeroFill m) ∧
    (stageStatuses m).length = 4 ∧
    stageStatuses ⟨none, none, none, none⟩ =
      [.fail, .fail, .fail, .warning] := by
  refine ⟨rfl, rfl, ?_⟩
  norm_num [stageStatuses, getIngestStage, getFaceStage, getRoiStage,
    getRppgStage, ingestNumWindows, faceWindowCount, roiTotalFrames,
    roiAllValid, rppgDuration, rppgTotalSamples, sumCounts,
    emptyIngest, emptyFace, emptyRoi, emptyRppg]

/-! ## Liveness presenter (`LivenessPanel.tsx`) -/

/-- `LivenessFeatures` from `types/api.ts`. -/
structure LivenessFeatures where
  hr_plausibility : ℚ
  spectral_concentration : ℚ
  spectral_sharpness : ℚ
  inter_region_coherence : ℚ
  phase_coherence : ℚ
  periodicity : ℚ
  harmonic_structure : ℚ
  hrv_score : ℚ
  hrv_sdnn_ms : ℚ
  temporal_hr_stability : ℚ
  respiratory_score : ℚ
deriving DecidableEq, Repr

/-- `LivenessFeatureDetail` from `types/api.ts`: `{value, weight}`. -/
structure LivenessFeatureDetail where
  value : ℚ
  weight : ℚ
deriving DecidableEq, Repr

/-- One entry of `ScoringBreakdown.gates` from `types/api.ts`. -/
structure GateDetail where
  value : ℚ
  threshold : ℚ
  gate : ℚ
deriving DecidableEq, Repr

/-- `ScoringBreakdown` from `types/api.ts`; string-keyed records become
association lists. -/
structure ScoringBreakdown where
  liveness_score : Option ℚ
  base_score : Option ℚ
  gate_factor : Option ℚ
  aggregate_sqi : Option ℚ
  tau_auth : Option ℚ
  features : Option (List (String × LivenessFeatureDetail))
  gates : Option (List (String × GateDetail))
  presence : Option ℚ
  consistency : Option ℚ
  score : Option ℚ
deriving DecidableEq, Repr

/-- The `features` block of `MetricsSummary` from `types/api.ts`
(the untyped `regions` record is not read by the panel and is kept as
a list of region names). -/
structure SummaryFeatures where
  regions : List String
  stability : Option ℚ
  liveness : Option LivenessFeatures
deriving DecidableEq, Repr

/-- The `sqi` block of `MetricsSummary` from `types/api.ts`. -/
structure SqiSummary where
  aggregate : Option ℚ
  regions : List (String × ℚ)
  motion_penalty : Option ℚ
  tau_sqi : Option ℚ
deriving DecidableEq, Repr

/-- `MetricsSummary` from `types/api.ts`. -/
structure MetricsSummary where
  sqi : Option SqiSummary
  features : Option SummaryFeatures
  scoring : Option ScoringBreakdown
deriving DecidableEq, Repr

/-- A rendered feature bar, interface `FeatureBar` in `LivenessPanel.tsx`. -/
structure FeatureBar where
  label : String
  description : String
  value : ℚ
  weight : ℚ
deriving DecidableEq, Repr

/-- The `labels` table in `getFeatureBars`: feature key, display label,
and description. -/
def livenessFeatureLabels : List (String × String × String) :=
  [("hr_plausibility", "Heart Rate Plausibility",
    "Is there a clear heartbeat peak above the noise floor (SNR > 6)? GATE"),
   ("spectral_concentration", "Spectral Concentration",
    "Is rPPG power concentrated in a narrow band (real pulse) or diffuse (noise)? GATE"),
   ("spectral_sharpness", "Spectral Sharpness (Q Factor)",
    "How narrow is the heart rate peak? Real PPG: Q > 8 (sharp). Noise: Q < 4 (broad). GATE"),
   ("inter_region_coherence", "Inter-Region Coherence",
    "Are forehead and cheek signals correlated? Real faces share one heartbeat."),
   ("phase_coherence", "Pulse Transit Time",
    "Do pulse signals show consistent propagation delay between face regions? Real faces have arterial wave transit; deepfakes do not."),
   ("periodicity", "Signal Periodicity",
    "Does the signal show repeating beat-to-beat pattern confirmed by 2nd autocorrelation peak?"),
   ("harmonic_structure", "Harmonic Structure",
    "Does the spectrum show a 2nd harmonic at 2x heart rate? Real PPG has this; noise does not."),
   ("hrv", "Heart Rate Variability",
    "Does beat-to-beat interval variation match normal physiology (20-120 ms SDNN)?"),
   ("temporal_stability", "Temporal HR Stability",
    "Is heart rate consistent across time windows? GATE — erratic HR = noise."),
   ("respiratory", "Respiratory Modulation",
    "Is there a clear respiratory peak modulating pulse amplitude?")]

/-- `labels[key]?.label ?? key` in `getFeatureBars`. -/
def featureBarLabel (key : String) : String :=
  match livenessFeatureLabels.find? (fun e => e.1 = key) with
  | some e => e.2.1
  | none => key

/-- `labels[key]?.description ?? ''` in `getFeatureBars`. -/
def featureBarDescription (key : String) : String :=
  match livenessFeatureLabels.find? (fun e => e.1 = key) with
  | some e => e.2.2
  | none => ""

/-- `getFeatureBars` in `LivenessPanel.tsx`: empty when `scoring` or
`scoring.features` is absent; otherwise one bar per feature entry, in
record order, carrying label, description, value and weight. -/
def getFeatureBars (ms : MetricsSummary) : List FeatureBar :=
  match ms.scoring.bind ScoringBreakdown.features with
  | none => []
  | some fs =>
      fs.map (fun kv =>
        ⟨featureBarLabel kv.1, featureBarDescription kv.1, kv.2.value, kv.2.weight⟩)

/-- The emerald bar class returned by `barColor` for the strong tier. -/
def emeraldBar : String := "bg-emerald-500 shadow-[0_0_12px_rgba(16,185,129,0.5)]"

/-- The amber bar class returned by `barColor` for the moderate tier. -/
def amberBar : String := "bg-amber-500 shadow-[0_0_12px_rgba(245,158,11,0.5)]"

/-- The red bar class returned by `barColor` for the weak/none tier. -/
def redBar : String := "bg-red-500 shadow-[0_0_12px_rgba(239,68,68,0.5)]"

/-- `barColor` in `LivenessPanel.tsx`:
`value >= 0.7` emerald, else `value >= 0.4` amber, else red. -/
def barColor (value : ℚ) : String :=
  if value ≥ 7/10 then emeraldBar
  else if value ≥ 4/10 then amberBar
  else redBar

/-- `valueLabel` in `LivenessPanel.tsx`:
`>= 0.7` Strong, else `>= 0.4` Moderate, else `> 0` Weak, else None. -/
def valueLabel (value : ℚ) : String :=
  if value ≥ 7/10 then "Strong"
  else if value ≥ 4/10 then "Moderate"
  else if value > 0 then "Weak"
  else "None"

/-- The color tier that corresponds to each label tier: Strong is the
emerald tier, Moderate the amber tier, Weak and None the red tier. -/
def colorOfLabel (l : String) : String :=
  if l = "Strong" then emeraldBar
  else if l = "Moderate" then amberBar
  else redBar

/-- The gating notice rendered by `LivenessPanel` when
`scoring?.gate_factor !== undefined && scoring.gate_factor < 1.0`:
the factor, the base score when present, and the gated liveness
score. -/
structure GateMessage where
  factor : ℚ
  base_score : Option ℚ
  gated_score : ℚ
deriving DecidableEq, Repr

/-- The overall liveness-score block of `LivenessPanel`, rendered only
when `livenessScore !== undefined`: the score, whether the filled bar
is colored human-leaning (`livenessScore >= (threshold ?? 0.45)`),
the threshold marker when `tau_auth` is present, and the optional
gating notice. -/
structure ScoreBlock where
  liveness_score : ℚ
  human_leaning : Bool
  threshold_marker : Option ℚ
  gate_message : Option GateMessage
deriving DecidableEq, Repr

/-- What the `LivenessPanel` component renders. -/
structure PanelView where
  score_block : Option ScoreBlock
  key_metrics_shown : Bool
  bars : List FeatureBar
deriving DecidableEq, Repr

/-- The `LivenessPanel` component in `LivenessPanel.tsx`. It returns
`none` (renders nothing) when `bars.length === 0 && !liveness`;
otherwise the score block is present exactly when
`scoring?.liveness_score` is, and the gating notice exactly when the
score block renders and `scoring?.gate_factor` is present and `< 1`. -/
def livenessPanel (ms : MetricsSummary) : Option PanelView :=
  let bars := getFeatureBars ms
  let liveness := ms.features.bind SummaryFeatures.liveness
  let scoring := ms.scoring
  if bars.isEmpty && liveness.isNone then none
  else
    some
      { score_block :=
          match scoring.bind ScoringBreakdown.liveness_score with
          | none => none
          | some ls =>
              some
                { liveness_score := ls
                  human_leaning :=
                    decide (ls ≥ ((scoring.bind ScoringBreakdown.tau_auth).getD (45/100)))
                  threshold_marker := scoring.bind ScoringBreakdown.tau_auth
                  gate_message :=
                    match scoring.bind ScoringBreakdown.gate_factor with
                    | none => none
                    | some g =>
                        if g < 1 then
                          some ⟨g, scoring.bind ScoringBreakdown.base_score, ls⟩
                        else none }
        key_metrics_shown := liveness.isSome
        bars := bars }

/-- The gating notice surfaced by the panel for a given summary, if any. -/
def gateMessageOf (ms : MetricsSummary) : Option GateMessage :=
  match livenessPanel ms with
  | none => none
  | some pv => pv.score_block.bind ScoreBlock.gate_message

/-- Claim C5: for every feature value in `[0,1]`, the per-feature label
is Strong iff `v ≥ 0.7`, Moderate iff `0.4 ≤ v < 0.7`, Weak iff
`0 < v < 0.4`, and None iff `v = 0` (boundaries 0.7 and 0.4 inclusive
toward the higher tier), and the bar color assigned to the same value
is exactly the color of the label tier. -/
theorem value_label_color_tiers (v : ℚ) (h0 : 0 ≤ v) (h1 : v ≤ 1) :
    (valueLabel v = "Strong" ↔ 7/10 ≤ v) ∧
    (valueLabel v = "Moderate" ↔ 4/10 ≤ v ∧ v < 7/10) ∧
    (valueLabel v = "Weak" ↔ 0 < v ∧ v < 4/10) ∧
    (valueLabel v = "None" ↔ v = 0) ∧
    barColor v = colorOfLabel (valueLabel v) := by
  unfold valueLabel barColor colorOfLabel
  split_ifs with ha hb hc <;>
    simp_all [emeraldBar, amberBar, redBar] <;>
    first
      | linarith
      | (intro h; linarith)
      | (constructor <;> intro h <;> linarith)

/-- Witness for `value_label_color_tiers` at `v = 3/4`. -/
theorem value_label_color_tiers_witness :
    (0 ≤ (3 : ℚ)/4 ∧ (3 : ℚ)/4 ≤ 1) ∧
    ((valueLabel (3/4) = "Strong" ↔ 7/10 ≤ (3 : ℚ)/4) ∧
     (valueLabel (3/4) = "Moderate" ↔ 4/10 ≤ (3 : ℚ)/4 ∧ (3 : ℚ)/4 < 7/10) ∧
     (valueLabel (3/4) = "Weak" ↔ 0 < (3 : ℚ)/4 ∧ (3 : ℚ)/4 < 4/10) ∧
     (valueLabel (3/4) = "None" ↔ (3 : ℚ)/4 = 0) ∧
     barColor (3/4) = colorOfLabel (valueLabel (3/4))) :=
  ⟨⟨by norm_num, by norm_num⟩,
   value_label_color_tiers (3/4) (by norm_num) (by norm_num)⟩

/-- A summary whose scoring has `gate_factor = 0.6 < 1` and a non-empty
features map, but no `liveness_score`. -/
def gateCexScoring : ScoringBreakdown :=
  ⟨none, some (8/10), some (6/10), none, some (45/100),
   some [("periodicity", ⟨1/2, 1⟩)], none, none, none, none⟩

/-- Metrics summary wrapping `gateCexScoring`. -/
def gateCexSummary : MetricsSummary := ⟨none, none, some gateCexScoring⟩

/-- Counterexample to claim C6 as stated: this scoring breakdown has
`gateFactor = 0.6 < 1.0` and the panel does render (the features map
is non-empty), yet no gating message is produced, because the gating
notice is nested inside the `livenessScore !== undefined` block and
`liveness_score` is absent here. -/
theorem liveness_panel_gate_cex :
    gateCexSummary.scoring = some gateCexScoring ∧
    gateCexScoring.gate_factor = some (6/10) ∧ ((6 : ℚ)/10 < 1) ∧
    (livenessPanel gateCexSummary).isSome = true ∧
    gateMessageOf gateCexSummary = none :=
  ⟨rfl, rfl, by norm_num, rfl, rfl⟩

/-- Claim C6, amended: for every scoring breakdown in which
`gateFactor < 1.0` **and `livenessScore` is present**, provided the
panel renders at all (non-empty feature bars or a `features.liveness`
block), the output flags that a hard gate penalized the score,
reporting the gated `livenessScore` together with `baseScore` exactly
when `baseScore` is present; and for every summary whose scoring has
no `gateFactor`, no gating message is produced. -/
theorem liveness_panel_gate_message (ms ms2 : MetricsSummary)
    (s : ScoringBreakdown) (g ls : ℚ)
    (hs : ms.scoring = some s) (hg : s.gate_factor = some g) (hlt : g < 1)
    (hls : s.liveness_score = some ls)
    (hr : (getFeatureBars ms).isEmpty = false ∨
          (ms.features.bind SummaryFeatures.liveness).isSome = true)
    (h2 : ms2.scoring.bind ScoringBreakdown.gate_factor = none) :
    gateMessageOf ms = some ⟨g, s.base_score, ls⟩ ∧
    gateMessageOf ms2 = none := by
  constructor
  · have hcond : ((getFeatureBars ms).isEmpty &&
        (ms.features.bind SummaryFeatures.liveness).isNone) = false := by
      rcases hr with h | h
      · simp [h]
      · have hni : (ms.features.bind SummaryFeatures.liveness).isNone = false := by
          cases hv : ms.features.bind SummaryFeatures.liveness
          · rw [hv] at h; simp at h
          · rfl
        simp [hni]
    simp [gateMessageOf, livenessPanel, hcond, hs, hls, hg, hlt]
  · unfold gateMessageOf livenessPanel
    cases hb : ((getFeatureBars ms2).isEmpty &&
        (ms2.features.bind SummaryFeatures.liveness).isNone)
    · cases hls2 : ms2.scoring.bind ScoringBreakdown.liveness_score <;>
        simp [hb, hls2, h2]
    · simp [hb]

/-- The scoring breakdown of the spec example: `gateFactor = 0.6`,
`baseScore = 0.8`, `livenessScore = 0.48`, non-empty features map. -/
def gateWScoring : ScoringBreakdown :=
  ⟨some (48/100), some (8/10), some (6/10), none, some (45/100),
   some [("periodicity", ⟨1/2, 1⟩)], none, none, none, none⟩

/-- Metrics summary wrapping `gateWScoring`. -/
def gateWSummary : MetricsSummary := ⟨none, none, some gateWScoring⟩

/-- A metrics summary with no scoring block at all. -/
def noScoringSummary : MetricsSummary := ⟨none, none, none⟩

/-- Witness for `liveness_panel_gate_message`: with
`gateFactor = 0.6, baseScore = 0.8, livenessScore = 0.48` the panel
reports the gating penalty with both scores, and with no `gateFactor`
no gating message appears. -/
theorem liveness_panel_gate_message_witness :
    ((6 : ℚ)/10 < 1 ∧ gateWScoring.liveness_score = some (48/100)) ∧
    (gateMessageOf gateWSummary = some ⟨6/10, some (8/10), 48/100⟩ ∧
     gateMessageOf noScoringSummary = none) :=
  ⟨⟨by norm_num, rfl⟩,
   liveness_panel_gate_message gateWSummary noScoringSummary gateWScoring
     (6/10) (48/100) rfl rfl (by norm_num) rfl (Or.inl rfl) rfl⟩

/-- Claim C10: for every metrics summary in which the scoring features
map is absent or empty and the `features.liveness` block is absent,
the panel renders nothing at all — in particular the aggregate
liveness score, its position relative to `tauAuth`, and any
gate-penalty message are all suppressed — even when `liveness_score`,
`tau_auth` and `gate_factor` are present in the input. -/
theorem liveness_panel_renders_nothing (ms : MetricsSummary)
    (hf : ms.scoring.bind ScoringBreakdown.features = none ∨
          ms.scoring.bind ScoringBreakdown.features = some [])
    (hl : ms.features.bind SummaryFeatures.liveness = none) :
    livenessPanel ms = none ∧ gateMessageOf ms = none := by
  have hbars : getFeatureBars ms = [] := by
    rcases hf with h | h <;> simp [getFeatureBars, h]
  constructor
  · simp [livenessPanel, hbars, hl]
  · simp [gateMessageOf, livenessPanel, hbars, hl]

/-- Scoring with `liveness_score`, `tau_auth` and `gate_factor` all
present but an empty features map. -/
def emptyFeaturesScoring : ScoringBreakdown :=
  ⟨some (9/10), some (95/100), some (1/2), none, some (45/100),
   some [], none, none, none, none⟩

/-- Summary whose features block exists but carries no liveness block,
wrapping `emptyFeaturesScoring`. -/
def emptyFeaturesSummary : MetricsSummary :=
  ⟨none, some ⟨[], none, none⟩, some emptyFeaturesScoring⟩

/-- Witness for `liveness_panel_renders_nothing`: empty features map,
no liveness block, score/threshold/gate all present — nothing is
rendered. -/
theorem liveness_panel_renders_nothing_witness :
    (emptyFeaturesSummary.scoring.bind ScoringBreakdown.features = some [] ∧
     emptyFeaturesSummary.features.bind SummaryFeatures.liveness = none ∧
     emptyFeaturesScoring.liveness_score = some (9/10) ∧
     emptyFeaturesScoring.tau_auth = some (45/100) ∧
     emptyFeaturesScoring.gate_factor = some (1/2)) ∧
    (livenessPanel emptyFeaturesSummary = none ∧
     gateMessageOf emptyFeaturesSummary = none) :=
  ⟨⟨rfl, rfl, rfl, rfl, rfl⟩,
   liveness_panel_renders_nothing emptyFeaturesSummary (Or.inr rfl) rfl⟩

/-! ## Evidence resolver (`EvidenceViewer.tsx`) -/

/-- The render state of one artifact category in `EvidenceViewer`:
`absent` — no section at all; `unavailable` — the explicit
"found in index but signed URLs not available" notice; `shown` — the
section with its resolved `(path, url)` entries. -/
inductive CatState where
  | absent
  | unavailable
  | shown (entries : List (String × String))
deriving DecidableEq, Repr

/-- Resolution common to all categories: keep, in index order, the paths
with a signed URL that have not hit a load error
(`signed_urls[path] && !imageErrors.has(path)`), paired with the URL. -/
def resolveEntries (paths : List String) (urls : String → Option String)
    (errors : List String) : List (String × String) :=
  paths.filterMap (fun p =>
    if p ∈ errors then none
    else
      match urls p with
      | some u => some (p, u)
      | none => none)

/-- The Face/ROI visualizations section of `EvidenceViewer`: rendered
only when `roi_masks` is present and non-empty; inside, if
`validMasks.length === 0` the explicit unavailable notice appears,
otherwise the resolved grid. -/
def roiMasksSection (paths : Option (List String))
    (urls : String → Option String) (errors : List String) : CatState :=
  match paths with
  | none => .absent
  | some ps =>
      if ps.length = 0 then .absent
      else if (resolveEntries ps urls errors).length = 0 then .unavailable
      else .shown (resolveEntries ps urls errors)

/-- The rPPG traces / spectra sections of `EvidenceViewer`: rendered when
the list is present and non-empty; unresolvable entries are skipped
(`return null`) with no unavailable notice. -/
def imageSection (paths : Option (List String))
    (urls : String → Option String) (errors : List String) : CatState :=
  match paths with
  | none => .absent
  | some ps =>
      if ps.length = 0 then .absent
      else .shown (resolveEntries ps urls errors)

/-- The everywhere-undefined signed-URL map. -/
def noUrls : String → Option String := fun _ => none

/-- Signed-URL map of the spec example: only `a.png` resolves. -/
def urlMapA : String → Option String :=
  fun p => if p = "a.png" then some "https://x/a" else none

/-- Counterexample to claim C7 as stated: `rppg_traces` is present in the
index with zero resolvable paths, yet the section is rendered as an
empty grid, not as a distinct unavailable state; and `roi_masks`
present with an empty path list is indistinguishable from an absent
category. -/
theorem evidence_unavailable_cex :
    resolveEntries ["a.png"] noUrls [] = [] ∧
    imageSection (some ["a.png"]) noUrls [] = CatState.shown [] ∧
    imageSection (some ["a.png"]) noUrls [] ≠ CatState.unavailable ∧
    roiMasksSection (some []) noUrls [] = CatState.absent ∧
    roiMasksSection none noUrls [] = CatState.absent :=
  ⟨rfl, rfl, by decide, rfl, rfl⟩

/-- With no load errors, the resolved paths are exactly the index paths
that have a URL, in index order. -/
lemma resolveEntries_map_fst (ps : List String)
    (urls : String → Option String) :
    (resolveEntries ps urls []).map Prod.fst =
      ps.filter (fun p => (urls p).isSome) := by
  induction ps with
  | nil => rfl
  | cons p ps ih =>
      cases hu : urls p <;>
        simp [resolveEntries, List.filterMap_cons, hu, List.filter_cons] <;>
        simpa [resolveEntries] using ih

/-- With no load errors, resolution is the ordered restriction of the
index paths to those present in the URL map, paired with their URL. -/
lemma resolveEntries_eq_filterMap (ps : List String)
    (urls : String → Option String) :
    resolveEntries ps urls [] =
      ps.filterMap (fun p => (urls p).map (fun u => (p, u))) := by
  induction ps with
  | nil => rfl
  | cons p ps ih =>
      cases hu : urls p <;>
        simp [resolveEntries, List.filterMap_cons, hu] <;>
        simpa [resolveEntries] using ih

/-- Claim C7, amended: for every index and URL map, the resolved list of
a category holds exactly the category's paths that also have a URL,
in index order (paths without a URL are dropped, not listed); the
`roi_masks` category with a **non-empty** path list and an empty
resolvable list reports the distinct unavailable state, different
from the absent state of a category missing from the index; the
`rppg_traces`/`rppg_spectra` categories always render their
(possibly empty) resolved list with no distinct unavailable state;
and a category present with an empty path list behaves as absent. -/
theorem evidence_resolution (ps : List String)
    (urls : String → Option String) (errors : List String)
    (hne : ps ≠ []) :
    (resolveEntries ps urls []).map Prod.fst =
      ps.filter (fun p => (urls p).isSome) ∧
    resolveEntries ps urls [] =
      ps.filterMap (fun p => (urls p).map (fun u => (p, u))) ∧
    roiMasksSection (some ps) urls errors =
      (if resolveEntries ps urls errors = [] then CatState.unavailable
       else CatState.shown (resolveEntries ps urls errors)) ∧
    roiMasksSection none urls errors = CatState.absent ∧
    imageSection (some ps) urls errors =
      CatState.shown (resolveEntries ps urls errors) := by
  refine ⟨resolveEntries_map_fst ps urls, resolveEntries_eq_filterMap ps urls,
    ?_, rfl, ?_⟩
  · have hl : ps.length ≠ 0 := by
      cases ps
      · exact absurd rfl hne
      · simp
    unfold roiMasksSection
    simp only [hl, if_false]
    by_cases hres : resolveEntries ps urls errors = []
    · simp [hres]
    · have : (resolveEntries ps urls errors).length ≠ 0 := by
        simpa [List.length_eq_zero] using hres
      simp [hres, this]
  · have hl : ps.length ≠ 0 := by
      cases ps
      · exact absurd rfl hne
      · simp
    unfold imageSection
    simp [hl]

/-- Witness for `evidence_resolution`, the spec example: index category
`["a.png", "b.png"]` with only `a.png` in the URL map resolves to
exactly `a.png` (in order), is shown (not unavailable), and differs
from the absent state. -/
theorem evidence_resolution_witness :
    ((["a.png", "b.png"] : List String) ≠ []) ∧
    ((resolveEntries ["a.png", "b.png"] urlMapA []).map Prod.fst =
       (["a.png", "b.png"].filter (fun p => (urlMapA p).isSome)) ∧
     resolveEntries ["a.png", "b.png"] urlMapA [] =
       (["a.png", "b.png"].filterMap (fun p => (urlMapA p).map (fun u => (p, u)))) ∧
     roiMasksSection (some ["a.png", "b.png"]) urlMapA [] =
       (if resolveEntries ["a.png", "b.png"] urlMapA [] = [] then CatState.unavailable
        else CatState.shown (resolveEntries ["a.png", "b.png"] urlMapA [])) ∧
     roiMasksSection none urlMapA [] = CatState.absent ∧
     imageSection (some ["a.png", "b.png"]) urlMapA [] =
       CatState.shown (resolveEntries ["a.png", "b.png"] urlMapA [])) :=
  ⟨by decide, evidence_resolution ["a.png", "b.png"] urlMapA [] (by decide)⟩

/-! ## Polling engine (`usePolling` in the UI hooks)

Discrete-time trace semantics for `usePolling(fetchFn, interval,
condition)`. At `t = 0` the initial `poll()` is issued and
`setInterval` is installed; the timer then fires at every positive
multiple of `interval`, and its callback issues a new probe unless
`shouldStopRef` is set. The k-th issued probe resolves
`spec.latency k` time units after issue (promise resolution is never
instantaneous, so latencies are positive in the scenarios of
interest) with outcome `spec.result k`; a success stores the data,
clears the error and sets the stop flag when `condition` holds, a
failure stores the error message and sets the stop flag. Completions
at an instant are processed before that instant's timer callback. -/

/-- Outcome of one probe: `ok stop` is a resolved `fetchFn()` whose
`condition(result)` evaluates to `stop`; `err m` is a rejection with
message `m`. -/
inductive ProbeResult where
  | ok (stop : Bool)
  | err (m : String)
deriving DecidableEq, Repr

/-- Behaviour of the probe sequence: latency and outcome of the k-th
issued probe. -/
structure PollSpec where
  latency : ℕ → ℕ
  result : ℕ → ProbeResult

/-- Observable state of one `usePolling` handle: `shouldStop` is
`shouldStopRef.current` (and whether `clearInterval` has run),
`error`/`hasData` the `error`/`data` React state, `issued` how many
probes have been started, `inFlight` the started-but-unresolved
probes as (index, completion time) pairs in issue order. -/
structure PollState where
  shouldStop : Bool
  error : Option String
  hasData : Bool
  issued : ℕ
  inFlight : List (ℕ × ℕ)
deriving DecidableEq, Repr

/-- State before the effect body runs. -/
def pollInit : PollState := ⟨false, none, false, 0, []⟩

/-- The resolution handler of `poll()` in `usePolling`: on success
`setData`, `setError(null)`, and stop when the condition holds; on
failure `setError(message)` and stop. -/
def applyResult (spec : PollSpec) (s : PollState) (k : ℕ) : PollState :=
  match spec.result k with
  | .ok stop =>
      { s with hasData := true, error := none,
               shouldStop := s.shouldStop || stop }
  | .err m => { s with error := some m, shouldStop := true }

/-- Process every in-flight probe that resolves at time `t`, in issue
order, removing them from the in-flight list. -/
def completeAt (spec : PollSpec) (s : PollState) (t : ℕ) : PollState :=
  let done := s.inFlight.filter (fun p => p.2 = t)
  let rest := s.inFlight.filter (fun p => ¬p.2 = t)
  done.foldl (fun st p => applyResult spec st p.1) { s with inFlight := rest }

/-- Start probe number `s.issued` at time `t`; it will resolve at
`t + latency`. -/
def issueProbe (spec : PollSpec) (s : PollState) (t : ℕ) : PollState :=
  { s with issued := s.issued + 1,
           inFlight := s.inFlight ++ [(s.issued, t + spec.latency s.issued)] }

/-- The `setInterval` callback at time `t`: fires when `t` is a positive
multiple of `interval` and issues a probe unless
`shouldStopRef.current` is set (`clearInterval` and the in-callback
guard coincide in this state). -/
def tickAt (spec : PollSpec) (interval : ℕ) (s : PollState) (t : ℕ) :
    PollState :=
  if t % interval = 0 ∧ s.shouldStop = false then issueProbe spec s t else s

/-- The handle state after processing time `t`: the initial `poll()` at
time 0, then at each later instant the completions followed by the
timer callback. -/
def pollStateAt (spec : PollSpec) (interval : ℕ) : ℕ → PollState
  | 0 => issueProbe spec pollInit 0
  | t + 1 =>
      tickAt spec interval
        (completeAt spec (pollStateAt spec interval t) (t + 1)) (t + 1)

/-- A stopped handle with nothing in flight never changes again. -/
lemma poll_stuck_fixed (spec : PollSpec) (interval : ℕ) (s : PollState)
    (hstop : s.shouldStop = true) (hif : s.inFlight = []) (t : ℕ) :
    tickAt spec interval (completeAt spec s t) t = s := by
  have h1 : completeAt spec s t = s := by
    obtain ⟨a, b, c, d, e⟩ := s
    simp only [PollState.mk.injEq] at hif ⊢
    subst hif
    simp [completeAt]
  rw [h1]
  simp [tickAt, hstop]

/-- Before the first timer tick, the handle holds exactly the initial
probe, still in flight when its latency exceeds the interval. -/
lemma pollStateAt_pre_interval (spec : PollSpec) (interval : ℕ)
    (hL : interval < spec.latency 0) :
    ∀ t, t < interval →
      pollStateAt spec interval t = ⟨false, none, false, 1, [(0, spec.latency 0)]⟩ := by
  intro t
  induction t with
  | zero => intro _; simp [pollStateAt, issueProbe, pollInit]
  | succ n ih =>
      intro ht
      have hn : n < interval := Nat.lt_of_succ_lt ht
      have hne : ¬(spec.latency 0 = n + 1) := by omega
      have hmod : (n + 1) % interval = n + 1 := Nat.mod_eq_of_lt ht
      rw [pollStateAt, ih hn]
      simp [completeAt, tickAt, issueProbe, hne, hmod, List.filter]

/-- Claim C2, amended: `usePolling` schedules probes on a wall-clock
`setInterval` timer aligned to start, not relative to the previous
probe completion — so whenever the first probe latency exceeds the
interval, a second probe is issued at time `interval` while the first
is still in flight, and two probes are in flight simultaneously for
the same handle. -/
theorem usePolling_wallclock_overlap (spec : PollSpec) (interval : ℕ)
    (hi : 0 < interval) (hL : interval < spec.latency 0) :
    pollStateAt spec interval interval =
      { shouldStop := false, error := none, hasData := false, issued := 2,
        inFlight := [(0, spec.latency 0), (1, interval + spec.latency 1)] } ∧
    (pollStateAt spec interval interval).inFlight.length = 2 := by
  obtain ⟨j, rfl⟩ : ∃ j, interval = j + 1 :=
    ⟨interval - 1, (Nat.succ_pred_eq_of_pos hi).symm⟩
  have hpre := pollStateAt_pre_interval spec (j + 1) hL j (Nat.lt_succ_self j)
  have hne : ¬(spec.latency 0 = j + 1) := by omega
  have hmain : pollStateAt spec (j + 1) (j + 1) =
      { shouldStop := false, error := none, hasData := false, issued := 2,
        inFlight := [(0, spec.latency 0), (1, (j + 1) + spec.latency 1)] } := by
    rw [pollStateAt, hpre]
    simp [completeAt, tickAt, issueProbe, hne, Nat.mod_self, List.filter]
  exact ⟨hmain, by rw [hmain]; rfl⟩

/-- The probe behaviour refuting single-flight: every probe takes 3
units and never satisfies the stop condition. -/
def overlapSpec : PollSpec := ⟨fun _ => 3, fun _ => .ok false⟩

/-- Counterexample to claim C2 as stated: with `interval = 2` and probe
latency 3, the handle has both probe 0 (issued at 0, resolving at 3)
and probe 1 (issued by the timer at 2, resolving at 5) in flight at
time 2 — two probes in flight simultaneously, and probe 1 was issued
before probe 0 completed rather than one interval after its
completion. -/
theorem usePolling_overlap_cex :
    pollStateAt overlapSpec 2 2 =
      { shouldStop := false, error := none, hasData := false, issued := 2,
        inFlight := [(0, 3), (1, 5)] } ∧
    (pollStateAt overlapSpec 2 2).inFlight.length = 2 := by
  constructor <;> rfl

/-- The probe behaviour of the amended-claim witness: latency 5, never
stopping. -/
def overlapSpec5 : PollSpec := ⟨fun _ => 5, fun _ => .ok false⟩

/-- Witness for `usePolling_wallclock_overlap` at `interval = 3`,
latency 5. -/
theorem usePolling_wallclock_overlap_witness :
    ((0 : ℕ) < 3 ∧ (3 : ℕ) < overlapSpec5.latency 0) ∧
    (pollStateAt overlapSpec5 3 3 =
      { shouldStop := false, error := none, hasData := false, issued := 2,
        inFlight := [(0, 5), (1, 8)] } ∧
     (pollStateAt overlapSpec5 3 3).inFlight.length = 2) :=
  ⟨⟨by decide, by decide⟩,
   usePolling_wallclock_overlap overlapSpec5 3 (by decide) (by decide)⟩

/-- The probe resolution handler never clears an already-set stop flag. -/
lemma applyResult_shouldStop_mono (spec : PollSpec) (s : PollState) (k : ℕ)
    (h : s.shouldStop = true) : (applyResult spec s k).shouldStop = true := by
  unfold applyResult
  cases spec.result k <;> simp [h]

/-- Processing any batch of completions preserves a set stop flag. -/
lemma foldl_applyResult_shouldStop_mono (spec : PollSpec) (l : List (ℕ × ℕ))
    (s : PollState) (h : s.shouldStop = true) :
    (l.foldl (fun st p => applyResult spec st p.1) s).shouldStop = true := by
  induction l generalizing s with
  | nil => exact h
  | cons q l ih => exact ih _ (applyResult_shouldStop_mono spec s q.1 h)

/-- The resolution handler never issues a probe. -/
lemma applyResult_issued (spec : PollSpec) (s : PollState) (k : ℕ) :
    (applyResult spec s k).issued = s.issued := by
  unfold applyResult
  cases spec.result k <;> rfl

/-- Processing a batch of completions never issues a probe. -/
lemma foldl_applyResult_issued (spec : PollSpec) (l : List (ℕ × ℕ))
    (s : PollState) :
    (l.foldl (fun st p => applyResult spec st p.1) s).issued = s.issued := by
  induction l generalizing s with
  | nil => rfl
  | cons q l ih => rw [List.foldl_cons, ih, applyResult_issued]

/-- Completions never change the number of issued probes. -/
lemma completeAt_issued (spec : PollSpec) (s : PollState) (t : ℕ) :
    (completeAt spec s t).issued = s.issued := by
  simp only [completeAt]
  rw [foldl_applyResult_issued]

/-- Completions preserve a set stop flag. -/
lemma completeAt_shouldStop_mono (spec : PollSpec) (s : PollState) (t : ℕ)
    (h : s.shouldStop = true) : (completeAt spec s t).shouldStop = true := by
  simp only [completeAt]
  exact foldl_applyResult_shouldStop_mono spec _ _ h

/-- The timer callback does nothing on a stopped handle. -/
lemma tickAt_stopped (spec : PollSpec) (interval : ℕ) (s : PollState) (t : ℕ)
    (h : s.shouldStop = true) : tickAt spec interval s t = s := by
  unfold tickAt
  simp [h]

/-- Once the stop flag is set, it stays set and no further probe is ever
issued. -/
lemma pollStateAt_stopped_after (spec : PollSpec) (interval T : ℕ)
    (h : (pollStateAt spec interval T).shouldStop = true) (d : ℕ) :
    (pollStateAt spec interval (T + d)).shouldStop = true ∧
    (pollStateAt spec interval (T + d)).issued =
      (pollStateAt spec interval T).issued := by
  induction d with
  | zero => exact ⟨h, rfl⟩
  | succ n ih =>
      obtain ⟨hs, hi⟩ := ih
      have hc : (completeAt spec (pollStateAt spec interval (T + n))
          (T + n + 1)).shouldStop = true :=
        completeAt_shouldStop_mono spec _ _ hs
      have hti : pollStateAt spec interval (T + n + 1) =
          completeAt spec (pollStateAt spec interval (T + n)) (T + n + 1) := by
        show tickAt spec interval
          (completeAt spec (pollStateAt spec interval (T + n)) (T + n + 1))
          (T + n + 1) = _
        exact tickAt_stopped spec interval _ _ hc
      constructor
      · show (pollStateAt spec interval (T + n + 1)).shouldStop = true
        rw [hti]; exact hc
      · show (pollStateAt spec interval (T + n + 1)).issued = _
        rw [hti, completeAt_issued]; exact hi

/-- If a batch of completions contains a failing probe, the stop flag is
set afterwards. -/
lemma foldl_applyResult_fail_stops (spec : PollSpec) (k c : ℕ) (m : String)
    (hk : spec.result k = .err m) (l : List (ℕ × ℕ)) (s : PollState)
    (hmem : (k, c) ∈ l) :
    (l.foldl (fun st p => applyResult spec st p.1) s).shouldStop = true := by
  revert s hmem
  induction l with
  | nil => intro s hmem; simp at hmem
  | cons q l ih =>
      intro s hmem
      rcases List.mem_cons.mp hmem with h | h
      · have hq : (applyResult spec s q.1).shouldStop = true := by
          rw [← h]
          simp [applyResult, hk]
        exact foldl_applyResult_shouldStop_mono spec l _ hq
      · exact ih _ h

/-- Probe behaviour exhibiting the error clobber: probe 0 succeeds after
10 units, every later probe fails after 1 unit. -/
def clobberSpec : PollSpec :=
  ⟨fun k => if k = 0 then 10 else 1,
   fun k => if k = 0 then .ok false else .err "boom"⟩

/-- Counterexample to claim C9 as stated: with `interval = 2`, probe 0
(issued at 0, resolving successfully at 10) and probe 1 (issued by
the timer at 2, rejecting at 3) overlap. The failure at time 3
surfaces `boom` and stops the handle, but the surfaced error is not
terminal: when the still-in-flight probe 0 resolves at time 10, its
success handler runs `setData` and `setError(null)`, silently
clearing the error. -/
theorem usePolling_error_clobbered_cex :
    (pollStateAt clobberSpec 2 3).error = some "boom" ∧
    (pollStateAt clobberSpec 2 3).shouldStop = true ∧
    (pollStateAt clobberSpec 2 10).error = none ∧
    (pollStateAt clobberSpec 2 10).hasData = true ∧
    (pollStateAt clobberSpec 2 10).issued = 2 :=
  ⟨rfl, rfl, rfl, rfl, rfl⟩

/-- Claim C9, amended: whenever a probe fails, polling for that handle
stops — the stop flag is set at the failure instant, no probe is
issued then or at any later time, and the failed probe is never
retried — and when the failing probe is the only probe in flight the
error message is surfaced and is terminal: the handle state is
unchanged at every later time. (When a sibling probe is still in
flight, its later success clears the surfaced error, so the error
string is terminal only in the single-flight regime.) -/
theorem usePolling_error_stops_no_retry (spec : PollSpec)
    (interval k t d : ℕ) (m : String) (hm : spec.result k = .err m)
    (hmem : (k, t + 1) ∈ (pollStateAt spec interval t).inFlight)
    (spec2 : PollSpec) (interval2 k2 t2 d2 : ℕ) (m2 : String)
    (hm2 : spec2.result k2 = .err m2)
    (hf2 : (pollStateAt spec2 interval2 t2).inFlight = [(k2, t2 + 1)]) :
    (pollStateAt spec interval (t + 1)).shouldStop = true ∧
    (pollStateAt spec interval (t + 1)).issued =
      (pollStateAt spec interval t).issued ∧
    (pollStateAt spec interval (t + 1 + d)).issued =
      (pollStateAt spec interval t).issued ∧
    (pollStateAt spec2 interval2 (t2 + 1)).error = some m2 ∧
    pollStateAt spec2 interval2 (t2 + 1 + d2) =
      pollStateAt spec2 interval2 (t2 + 1) := by
  have hcstop : (completeAt spec (pollStateAt spec interval t)
      (t + 1)).shouldStop = true := by
    simp only [completeAt]
    have hd : (k, t + 1) ∈ (pollStateAt spec interval t).inFlight.filter
        (fun p => decide (p.2 = t + 1)) :=
      List.mem_filter.mpr ⟨hmem, by simp⟩
    exact foldl_applyResult_fail_stops spec k (t + 1) m hm _ _ hd
  have hstop1 : (pollStateAt spec interval (t + 1)).shouldStop = true := by
    show (tickAt spec interval
      (completeAt spec (pollStateAt spec interval t) (t + 1))
      (t + 1)).shouldStop = true
    rw [tickAt_stopped spec interval _ _ hcstop]
    exact hcstop
  have hiss1 : (pollStateAt spec interval (t + 1)).issued =
      (pollStateAt spec interval t).issued := by
    show (tickAt spec interval
      (completeAt spec (pollStateAt spec interval t) (t + 1))
      (t + 1)).issued = _
    rw [tickAt_stopped spec interval _ _ hcstop, completeAt_issued]
  have hafter := pollStateAt_stopped_after spec interval (t + 1) hstop1 d
  have hstep : pollStateAt spec2 interval2 (t2 + 1) =
      { pollStateAt spec2 interval2 t2 with
        inFlight := [], error := some m2, shouldStop := true } := by
    have hc : completeAt spec2 (pollStateAt spec2 interval2 t2) (t2 + 1) =
        { pollStateAt spec2 interval2 t2 with
          inFlight := [], error := some m2, shouldStop := true } := by
      unfold completeAt
      rw [hf2]
      simp [applyResult, hm2, List.filter]
    rw [pollStateAt, hc]
    simp [tickAt]
  refine ⟨hstop1, hiss1, by rw [hafter.2]; exact hiss1, by rw [hstep], ?_⟩
  induction d2 with
  | zero => rfl
  | succ n ih =>
      show tickAt spec2 interval2
        (completeAt spec2 (pollStateAt spec2 interval2 (t2 + 1 + n))
          (t2 + 1 + n + 1))
        (t2 + 1 + n + 1) = _
      rw [ih, hstep]
      exact poll_stuck_fixed spec2 interval2 _ rfl rfl _

/-- Probe behaviour whose first probe (latency 1) is rejected with
message `boom`; later probes would succeed. -/
def failingSpec : PollSpec :=
  ⟨fun _ => 1, fun k => if k = 0 then .err "boom" else .ok false⟩

/-- Witness for `usePolling_error_stops_no_retry`: the initial probe of
`failingSpec` fails at time 1 and is the only probe in flight; the
handle is stopped, no probe is issued at time 1 or within the next
seven time units, the error is surfaced, and the state is unchanged
seven time units later. -/
theorem usePolling_error_stops_no_retry_witness :
    (failingSpec.result 0 = .err "boom" ∧
     (0, 0 + 1) ∈ (pollStateAt failingSpec 2 0).inFlight ∧
     (pollStateAt failingSpec 2 0).inFlight = [(0, 0 + 1)]) ∧
    ((pollStateAt failingSpec 2 (0 + 1)).shouldStop = true ∧
     (pollStateAt failingSpec 2 (0 + 1)).issued =
       (pollStateAt failingSpec 2 0).issued ∧
     (pollStateAt failingSpec 2 (0 + 1 + 7)).issued =
       (pollStateAt failingSpec 2 0).issued ∧
     (pollStateAt failingSpec 2 (0 + 1)).error = some "boom" ∧
     pollStateAt failingSpec 2 (0 + 1 + 7) = pollStateAt failingSpec 2 (0 + 1)) :=
  ⟨⟨rfl, by decide, rfl⟩,
   usePolling_error_stops_no_retry failingSpec 2 0 0 7 "boom" rfl (by decide)
     failingSpec 2 0 0 7 "boom" rfl rfl⟩

/-! ## Job-status tracker (`useAnalysis.ts`)

The `useAnalysis(analysisId)` hook runs its effect once per
`analysisId`. The effect performs the initial `fetchStatus()` and
installs a `setInterval` whose callback reads the `status` state
variable. That callback closes over the binding of the render in
which the effect ran — the first render, where `status` is still
`null` — and the effect is never re-run on status updates (its
dependency array is `[analysisId]`), so the captured snapshot stays
`null` forever. -/

/-- `AnalysisStatus` from `types/api.ts`. -/
inductive AnalysisStatus where
  | queued
  | running
  | done
  | failed
deriving DecidableEq, Repr

/-- Result of one `api.getAnalysis` call: the status response or a
rejection message. -/
inductive UaFetchResult where
  | ok (s : AnalysisStatus)
  | err (m : String)
deriving DecidableEq, Repr

/-- Observable state of one `useAnalysis` run: the `status` and `error`
React state, whether the interval is still installed, and how many
fetches have been started. -/
structure UaState where
  status : Option AnalysisStatus
  error : Option String
  intervalActive : Bool
  probes : ℕ
deriving DecidableEq, Repr

/-- The value of the `status` state variable captured by the
`setInterval` callback: the effect runs after the first render for
the given `analysisId`, where `useState` still holds `null`, and the
closure keeps that binding for the lifetime of the interval. -/
def uaCapturedStatus : Option AnalysisStatus := none

/-- The resolution handler of `fetchStatus()` in `useAnalysis`: on
success store the response, clear the error, and clear the interval
when the status is `done` or `failed`; on rejection store the message
and clear the interval. -/
def uaApplyFetch (server : ℕ → UaFetchResult) (st : UaState) : UaState :=
  match server st.probes with
  | .ok s =>
      { status := some s, error := none,
        intervalActive :=
          if s = .done ∨ s = .failed then false else st.intervalActive,
        probes := st.probes + 1 }
  | .err m =>
      { status := st.status, error := some m, intervalActive := false,
        probes := st.probes + 1 }

/-- The guard of the interval callback,
`isMounted && status && status.status !== 'done' && status.status !== 'failed'`,
evaluated on the status snapshot the closure holds. -/
def uaTickFires (captured : Option AnalysisStatus) : Bool :=
  match captured with
  | none => false
  | some s => decide (s ≠ .done) && decide (s ≠ .failed)

/-- One firing of the `setInterval` callback: a further `fetchStatus()`
is started only when the guard passes on the captured snapshot. -/
def uaTick (server : ℕ → UaFetchResult) (st : UaState) : UaState :=
  if st.intervalActive && uaTickFires uaCapturedStatus then
    uaApplyFetch server st
  else st

/-- The `useAnalysis` run after the initial fetch and `n` firings of the
2-second interval. -/
def uaRun (server : ℕ → UaFetchResult) : ℕ → UaState
  | 0 => uaApplyFetch server ⟨none, none, true, 0⟩
  | n + 1 => uaTick server (uaRun server n)

/-- A server that always answers with status `queued`. -/
def queuedServer : ℕ → UaFetchResult := fun _ => .ok .queued

/-- Claim C1 fails on the code: the claim says that while the latest
observed status is Queued or Running a further probe is issued after
each polling interval. In `useAnalysis` the interval callback tests
the closure-captured status snapshot, which is forever `null`, so for
every server behaviour exactly one probe (the initial fetch) is ever
issued — in particular, after the first probe observes `queued`, the
status stays `queued` and no further probe follows any number of
interval firings. (The terminal half of the claim holds trivially:
with no further probes, none are issued after Done/Failed.) -/
theorem useAnalysis_stale_closure_stops_polling
    (server : ℕ → UaFetchResult) (n : ℕ) :
    (uaRun server n).probes = 1 ∧
    (uaRun queuedServer n).status = some AnalysisStatus.queued := by
  have ht : ∀ srv st, uaTick srv st = st := by
    intro srv st
    simp [uaTick, uaTickFires, uaCapturedStatus]
  constructor
  · induction n with
    | zero => cases h : server 0 <;> simp [uaRun, uaApplyFetch, h]
    | succ n ih => rw [uaRun, ht]; exact ih
  · induction n with
    | zero => rfl
    | succ n ih => rw [uaRun, ht]; exact ih
